import Mathlib

/-!
Verification development for the tool-mediated multi-round generation loop of
the course-materials RAG assistant.

The definitions below are a shallow embedding of
`backend/ai_generator.py` (class `AIGenerator`, method `generate_response`).
The completion endpoint is modelled as a function from the call index (the
number of completion calls already issued) to either an exception detail
string or a response; the tool manager is modelled as a function from tool
name and keyword arguments to either an exception detail string or a result
string.  Exceptions are represented with `Except String`.  The embedding
records, besides the returned answer string, the ordered list of parameter
sets sent to the completion endpoint, so that temporal properties about the
sequence of completion calls can be stated.  The constant base parameters
(model name, temperature, max_tokens), which are merged into every call
unchanged, are omitted from the recorded parameters.
-/

namespace RagSpec

/-- Tool schemas are passed through opaquely by the orchestrator; their
content never influences control flow, so they are modelled as strings. -/
abbrev ToolDef := String

/-- One content block of a model response: either a tool-use request
(fields `name`, `input`, `id` as on the Anthropic content block) or a
text block. -/
inductive ContentBlock where
  | toolUse (name : String) (input : List (String × String)) (id : String)
  | text (body : String)
deriving DecidableEq

/-- A completion-endpoint response: `stop_reason` and the list of content
blocks, as read by `generate_response`. -/
structure Response where
  stop_reason : String
  content : List ContentBlock
deriving DecidableEq

/-- One entry of the folded-back tool results, mirroring the dict
`\x7b"type": "tool_result", "tool_use_id": ..., "content": ...\x7d` built at
ai_generator.py lines 114-128.  The constant `type` tag is implicit in the
Lean constructor. -/
structure ToolResultEntry where
  tool_use_id : String
  content : String
deriving DecidableEq

/-- Content of a conversation message: the initial user query text, an
assistant turn holding raw response blocks, or a folded tool-results list. -/
inductive MsgContent where
  | ofText (s : String)
  | ofBlocks (bs : List ContentBlock)
  | ofToolResults (rs : List ToolResultEntry)
deriving DecidableEq

/-- A conversation message with its role, mirroring the dicts appended to
`messages` in `generate_response`. -/
structure ChatMessage where
  role : String
  content : MsgContent
deriving DecidableEq

/-- The tool manager as seen by `generate_response`: only its
`execute_tool(name, **kwargs)` method is used.  A raised exception is
modelled as `.error` carrying `str(e)`. -/
structure ToolManager where
  execute_tool : String → List (String × String) → Except String String

/-- The parameters of one completion call that the claims inspect:
`messages`, `system`, and the optional `tools` / `tool_choice` entries
(absent entries are `none`).  The constant base parameters are omitted. -/
structure ApiParams where
  messages : List ChatMessage
  system : String
  tools : Option (List ToolDef)
  tool_choice : Option String
deriving DecidableEq

/-- Result of running `generate_response`: the returned answer string and
the ordered list of parameter sets sent to the completion endpoint. -/
structure GenResult where
  answer : String
  calls : List ApiParams
deriving DecidableEq

/-- The static system prompt, `AIGenerator.SYSTEM_PROMPT`
(ai_generator.py lines 10-37), reproduced verbatim. -/
def SYSTEM_PROMPT : String :=
  " You are an AI assistant specialized in course materials and educational content with access to comprehensive search tools for course information.\n\nTool Usage Guidelines:\n- **Course outline/structure questions**: Use the get_course_outline tool to retrieve course title, course link, and complete lesson lists\n- **Specific course content questions**: Use the search_course_content tool for detailed educational materials\n- **Sequential tool usage**: You can make up to 2 rounds of tool calls to gather comprehensive information\n- **Strategic tool combinations**: Use get_course_outline first to understand structure, then search_course_content for specific details when needed\n- Synthesize tool results into accurate, fact-based responses\n- If tools yield no results, state this clearly without offering alternatives\n\nResponse Protocol for Outline Queries:\n- When using get_course_outline tool, always include:\n  - Course title\n  - Course link (if available)\n  - Complete lesson list with lesson numbers and titles\n- **Course-specific questions**: Use appropriate tool first, then answer\n- **General knowledge questions**: Answer using existing knowledge without using tools\n- **No meta-commentary**:\n - Provide direct answers only — no reasoning process, tool usage explanations, or question-type analysis\n - Do not mention \"based on the search results\" or \"using the outline tool\"\n\nAll responses must be:\n1. **Brief, Concise and focused** - Get to the point quickly\n2. **Educational** - Maintain instructional value\n3. **Clear** - Use accessible language\n4. **Example-supported** - Include relevant examples when they aid understanding\nProvide only the direct answer to what was asked.\n"

/-- The round bound `max_rounds = 2` set at ai_generator.py line 76. -/
def max_rounds : Nat := 2

/-- Message returned when a tool invocation is requested with no tool
manager configured, and by the loop fallthrough (lines 153 and 167). -/
def unableMsg : String :=
  "I was unable to complete the request within the allowed rounds."

/-- Round-1 failure apology carrying the exception detail (line 161). -/
def round1Apology (e : String) : String :=
  "I\x27m sorry, I encountered an error while processing your request: " ++ e

/-- Later-round failure apology, without the exception detail (line 164). -/
def followupApologyMsg : String :=
  "I gathered some information but encountered an error in follow-up analysis. Please try rephrasing your question."

/-- Apology returned when the forced final no-tools call itself fails
(line 146). -/
def finalErrorMsg : String :=
  "I gathered some information but encountered an error in final processing."

/-- Dispatch of the outer exception handler (lines 157-164): round 1 gets
the detailed apology, later rounds the fixed softer one. -/
def roundFailureMsg (n : Nat) (e : String) : String :=
  if n = 1 then round1Apology e else followupApologyMsg

/-- Reading `response.content[0].text` (lines 144 and 155): an empty list
raises IndexError, a leading tool-use block raises AttributeError; both are
modelled as `.error` with a generic detail string. -/
def firstText : List ContentBlock → Except String String
  | [] => .error ("list index out of range")
  | ContentBlock.text t :: _ => .ok t
  | ContentBlock.toolUse _ _ _ :: _ => .error ("object has no attribute text")

/-- Python truthiness of the `tools` argument (`if tools:` at line 93):
`None` and the empty list are falsy. -/
def toolsParam : Option (List ToolDef) → Option (List ToolDef)
  | some (t :: ts) => some (t :: ts)
  | _ => none

/-- System text for one round (lines 81-83):
`f"\x7bsystem_content\x7d\n\n[Round \x7bcurrent_round\x7d of \x7bmax_rounds\x7d]"`. -/
def roundSystem (system_content : String) (n : Nat) : String :=
  system_content ++ "\n\n[Round " ++ toString n ++ " of " ++ toString max_rounds ++ "]"

/-- Parameters of the round-`n` completion call (lines 86-95): the current
messages, the round system text, and the tools plus automatic tool choice
exactly when the `tools` argument is truthy. -/
def roundParams (system_content : String) (tools : Option (List ToolDef))
    (messages : List ChatMessage) (n : Nat) : ApiParams :=
  { messages := messages
    system := roundSystem system_content n
    tools := toolsParam tools
    tool_choice := match toolsParam tools with
      | some _ => some ("auto")
      | none => none }

/-- Parameters of the forced final no-tools call (lines 136-140): the
accumulated messages and the round system text, with no `tools` and no
`tool_choice` entry. -/
def finalParams (system_content : String) (messages : List ChatMessage)
    (n : Nat) : ApiParams :=
  { messages := messages
    system := roundSystem system_content n
    tools := none
    tool_choice := none }

/-- The per-block dispatch loop (lines 107-128): each tool-use block is
dispatched in order; an exception from `execute_tool` is caught and turned
into a result whose content is `"Error executing tool: " ++ str(e)`; text
blocks are skipped. -/
def execBlocks (tmv : ToolManager) : List ContentBlock → List ToolResultEntry
  | [] => []
  | ContentBlock.toolUse name args bid :: rest =>
    { tool_use_id := bid
      content := match tmv.execute_tool name args with
        | .ok s => s
        | .error e => "Error executing tool: " ++ e } :: execBlocks tmv rest
  | ContentBlock.text _ :: rest => execBlocks tmv rest

/-- The tool-use requests contained in a model turn, in order: the
projection of the tool-use blocks. -/
structure ToolUseReq where
  name : String
  input : List (String × String)
  id : String
deriving DecidableEq

/-- Extraction of the ordered tool-use requests from a content list. -/
def toolUseReqs : List ContentBlock → List ToolUseReq
  | [] => []
  | ContentBlock.toolUse name args bid :: rest =>
    { name := name, input := args, id := bid } :: toolUseReqs rest
  | ContentBlock.text _ :: rest => toolUseReqs rest

/-- The initial user message holding the query (line 75). -/
def userMsg (q : String) : ChatMessage :=
  { role := "user", content := MsgContent.ofText q }

/-- The assistant turn appended at line 104, holding the raw response
content. -/
def asstMsg (content : List ContentBlock) : ChatMessage :=
  { role := "assistant", content := MsgContent.ofBlocks content }

/-- The folded-back user message holding the tool results (line 132). -/
def toolResultsMsg (rs : List ToolResultEntry) : ChatMessage :=
  { role := "user", content := MsgContent.ofToolResults rs }

/-- Message-list update of one tool round (lines 104-132): append the
assistant turn, then append the tool-results user message unless the
result list is empty (`if tool_results:` at line 130). -/
def afterTool (tmv : ToolManager) (messages : List ChatMessage)
    (content : List ContentBlock) : List ChatMessage :=
  let messages1 := messages ++ [asstMsg content]
  let tool_results := execBlocks tmv content
  if tool_results.isEmpty then messages1
  else messages1 ++ [toolResultsMsg tool_results]

/-- Outcome of the forced final no-tools call (lines 142-146): the text of
the first content block on success, and the fixed degraded apology if the
call or the text extraction raises. -/
def finalCallAnswer (ep : Nat → Except String Response) (k : Nat) : String :=
  match ep k with
  | .ok final_response =>
    match firstText final_response.content with
    | .ok t => t
    | .error _ => finalErrorMsg
  | .error _ => finalErrorMsg

/-- The sequential round loop of `generate_response` (lines 79-167).
`rounds` is the list of remaining round numbers (initially
`[1, ..., max_rounds]`), `messages` the accumulated conversation, and `k`
the number of completion calls already issued (used to index the
endpoint).  Returns the answer together with the ordered trace of
completion-call parameters issued from this point on. -/
def runRounds (ep : Nat → Except String Response) (system_content : String)
    (tools : Option (List ToolDef)) (tm : Option ToolManager) :
    List Nat → List ChatMessage → Nat → GenResult
  | [], _, _ => { answer := unableMsg, calls := [] }
  | n :: rest, messages, k =>
    let api_params := roundParams system_content tools messages n
    match ep k with
    | .error e => { answer := roundFailureMsg n e, calls := [api_params] }
    | .ok response =>
      if response.stop_reason = "tool_use" then
        match tm with
        | some tmv =>
          let messages2 := afterTool tmv messages response.content
          if max_rounds ≤ n then
            { answer := finalCallAnswer ep (k + 1)
              calls := [api_params, finalParams system_content messages2 n] }
          else
            let r := runRounds ep system_content tools tm rest messages2 (k + 1)
            { answer := r.answer, calls := api_params :: r.calls }
        | none => { answer := unableMsg, calls := [api_params] }
      else
        match firstText response.content with
        | .ok t => { answer := t, calls := [api_params] }
        | .error e => { answer := roundFailureMsg n e, calls := [api_params] }

/-- Composition of the base system content (lines 68-72): the static
prompt, extended with the formatted history exactly when
`conversation_history` is truthy (not `None` and not empty). -/
def systemContentOf : Option String → String
  | some h =>
    if h = "" then SYSTEM_PROMPT
    else SYSTEM_PROMPT ++ "\n\nPrevious conversation:\n" ++ h
  | none => SYSTEM_PROMPT

/-- Shallow embedding of `AIGenerator.generate_response`
(ai_generator.py lines 46-167). -/
def generate_response (ep : Nat → Except String Response) (query : String)
    (conversation_history : Option String) (tools : Option (List ToolDef))
    (tool_manager : Option ToolManager) : GenResult :=
  runRounds ep (systemContentOf conversation_history) tools tool_manager
    ((List.range max_rounds).map (fun i => i + 1)) [userMsg query] 0

/-- System text the claim C7 predicts for round `n`: static prompt, then
the history section exactly when a history string was supplied (`isSome`),
then the round marker.  This follows the words of the claim, for
comparison with the code-side composition. -/
def specSystemFor (hist : Option String) (n : Nat) : String :=
  (match hist with
   | some h => SYSTEM_PROMPT ++ "\n\nPrevious conversation:\n" ++ h
   | none => SYSTEM_PROMPT) ++
  "\n\n[Round " ++ toString n ++ " of 2]"

/-- System text per the amended claim C7: the history section appears
exactly when a non-empty history string was supplied. -/
def amendedSystemFor (hist : Option String) (n : Nat) : String :=
  (match hist with
   | some h =>
     if h = "" then SYSTEM_PROMPT
     else SYSTEM_PROMPT ++ "\n\nPrevious conversation:\n" ++ h
   | none => SYSTEM_PROMPT) ++
  "\n\n[Round " ++ toString n ++ " of 2]"

/-- A retrieval source captured by a tool: display label and optional
link. -/
structure Source where
  display : String
  link : Option String
deriving DecidableEq

/-- Modelled from the spec: the source-tracking state of the tool registry
(`ToolManager` in search_tools.py, whose source file is absent from this
repository snapshot; only its tests are present).  Per spec section 4.3
the registry holds registered tools in registration order, each with its
own captured `last_sources` list; only that per-tool state is relevant to
source collection, so the state is the list of per-tool source lists. -/
structure ToolManagerSources where
  tool_sources : List (List Source)
deriving DecidableEq

/-- Modelled from the spec: `collectSources()` (`get_last_sources`)
concatenates `last_sources` across all registered tools, in registration
order.  It reads the state without mutating it, so it is modelled as a
state transition returning the collected list and the unchanged state. -/
def get_last_sources (m : ToolManagerSources) :
    List Source × ToolManagerSources :=
  ((m.tool_sources).flatten, m)

/-- Modelled from the spec: `clearSources()` (`reset_sources`) resets
every registered tool's captured sources to empty. -/
def reset_sources (m : ToolManagerSources) : ToolManagerSources :=
  { tool_sources := m.tool_sources.map (fun _ => []) }

/-- Witness endpoint: a tool-use response with one tool-use block. -/
def respToolUse (bid : String) : Response :=
  { stop_reason := "tool_use"
    content := [ContentBlock.toolUse ("search_course_content") [("query", "x")] bid] }

/-- Witness response: tool-use stop reason but zero tool-use blocks. -/
def respToolUseEmpty : Response :=
  { stop_reason := "tool_use", content := [] }

/-- Witness response: ordinary completion with a text block. -/
def respText (t : String) : Response :=
  { stop_reason := "end_turn", content := [ContentBlock.text t] }

/-- Witness tool manager whose dispatch always succeeds. -/
def tmOk : ToolManager :=
  { execute_tool := fun _ _ => .ok ("result") }

/-- Witness endpoint: tool use in rounds 1 and 2, then text. -/
def epTTF : Nat → Except String Response := fun k =>
  if k = 0 then .ok (respToolUse ("a"))
  else if k = 1 then .ok (respToolUse ("b"))
  else .ok (respText ("final"))

/-- Witness endpoint: always raises. -/
def epErr0 : Nat → Except String Response := fun _ => .error ("boom")

/-- Witness endpoint: tool use on the first call, raises afterwards. -/
def epToolThenErr : Nat → Except String Response := fun k =>
  if k = 0 then .ok (respToolUse ("a")) else .error ("boom2")

/-- Witness endpoint: tool use on the first two calls, raises afterwards. -/
def epToolToolErr : Nat → Except String Response := fun k =>
  if k ≤ 1 then .ok (respToolUse ("a")) else .error ("boom3")

/-- Witness endpoint: always an ordinary text completion. -/
def epTextOnly : Nat → Except String Response := fun _ => .ok (respText ("hi"))

/-- Witness endpoint: always requests tool use. -/
def epToolOnly : Nat → Except String Response := fun _ => .ok (respToolUse ("a"))

/-- Witness endpoint: always tool-use stop reason with zero blocks. -/
def epEmptyTool : Nat → Except String Response := fun _ => .ok respToolUseEmpty

section Lemmas

variable (ep : Nat → Except String Response) (sc : String)
variable (tools : Option (List ToolDef)) (tm : Option ToolManager)
variable (tmv : ToolManager)

/-- The initial rounds list is `[1, 2]`. -/
theorem roundsList_eq : (List.range max_rounds).map (fun i => i + 1) = [1, 2] := rfl

/-- Branch equation: exhausted rounds list. -/
theorem runRounds_nil (ms : List ChatMessage) (k : Nat) :
    runRounds ep sc tools tm [] ms k = { answer := unableMsg, calls := [] } := rfl

/-- Branch equation: the completion call raises. -/
theorem runRounds_error (n : Nat) (rest : List Nat) (ms : List ChatMessage)
    (k : Nat) (e : String) (h : ep k = .error e) :
    runRounds ep sc tools tm (n :: rest) ms k
      = { answer := roundFailureMsg n e, calls := [roundParams sc tools ms n] } := by
  simp [runRounds, h]

/-- Branch equation: ordinary completion with a readable first text block. -/
theorem runRounds_text (n : Nat) (rest : List Nat) (ms : List ChatMessage)
    (k : Nat) (r : Response) (t : String) (h : ep k = .ok r)
    (hs : ¬ r.stop_reason = "tool_use") (ht : firstText r.content = .ok t) :
    runRounds ep sc tools tm (n :: rest) ms k
      = { answer := t, calls := [roundParams sc tools ms n] } := by
  simp [runRounds, h, hs, ht]

/-- Branch equation: ordinary completion whose text extraction raises. -/
theorem runRounds_text_err (n : Nat) (rest : List Nat) (ms : List ChatMessage)
    (k : Nat) (r : Response) (e : String) (h : ep k = .ok r)
    (hs : ¬ r.stop_reason = "tool_use") (ht : firstText r.content = .error e) :
    runRounds ep sc tools tm (n :: rest) ms k
      = { answer := roundFailureMsg n e, calls := [roundParams sc tools ms n] } := by
  simp [runRounds, h, hs, ht]

/-- Branch equation: tool use requested with no tool manager. -/
theorem runRounds_noManager (n : Nat) (rest : List Nat) (ms : List ChatMessage)
    (k : Nat) (r : Response) (h : ep k = .ok r)
    (hs : r.stop_reason = "tool_use") :
    runRounds ep sc tools none (n :: rest) ms k
      = { answer := unableMsg, calls := [roundParams sc tools ms n] } := by
  simp [runRounds, h, hs]

/-- Branch equation: tool round in the final allowed round. -/
theorem runRounds_tool_final (n : Nat) (rest : List Nat) (ms : List ChatMessage)
    (k : Nat) (r : Response) (h : ep k = .ok r)
    (hs : r.stop_reason = "tool_use") (hn : max_rounds ≤ n) :
    runRounds ep sc tools (some tmv) (n :: rest) ms k
      = { answer := finalCallAnswer ep (k + 1)
          calls := [roundParams sc tools ms n,
                    finalParams sc (afterTool tmv ms r.content) n] } := by
  simp [runRounds, h, hs, hn]

/-- Branch equation: tool round before the final allowed round. -/
theorem runRounds_tool_step (n : Nat) (rest : List Nat) (ms : List ChatMessage)
    (k : Nat) (r : Response) (h : ep k = .ok r)
    (hs : r.stop_reason = "tool_use") (hn : ¬ max_rounds ≤ n) :
    runRounds ep sc tools (some tmv) (n :: rest) ms k
      = { answer := (runRounds ep sc tools (some tmv) rest
                      (afterTool tmv ms r.content) (k + 1)).answer
          calls := roundParams sc tools ms n ::
                   (runRounds ep sc tools (some tmv) rest
                      (afterTool tmv ms r.content) (k + 1)).calls } := by
  simp [runRounds, h, hs, hn]

/-- The first completion call issued from any round carries the current
messages, the current round system text, and the tools parameter; this
holds in every branch of the loop body. -/
theorem runRounds_head (n : Nat) (rest : List Nat) (ms : List ChatMessage)
    (k : Nat) :
    (runRounds ep sc tools tm (n :: rest) ms k).calls[0]?
      = some (roundParams sc tools ms n) := by
  rcases h : ep k with e | r
  · rw [runRounds_error ep sc tools tm n rest ms k e h]; rfl
  · by_cases hs : r.stop_reason = "tool_use"
    · rcases tm with _ | tmv
      · rw [runRounds_noManager ep sc tools n rest ms k r h hs]; rfl
      · by_cases hn : max_rounds ≤ n
        · rw [runRounds_tool_final ep sc tools tmv n rest ms k r h hs hn]; rfl
        · rw [runRounds_tool_step ep sc tools tmv n rest ms k r h hs hn]; simp
    · rcases ht : firstText r.content with e | t
      · rw [runRounds_text_err ep sc tools tm n rest ms k r e h hs ht]; rfl
      · rw [runRounds_text ep sc tools tm n rest ms k r t h hs ht]; rfl

/-- Every entered round issues at least one completion call. -/
theorem runRounds_length_pos (n : Nat) (rest : List Nat) (ms : List ChatMessage)
    (k : Nat) :
    1 ≤ (runRounds ep sc tools tm (n :: rest) ms k).calls.length := by
  have h := runRounds_head ep sc tools tm n rest ms k
  rcases hc : (runRounds ep sc tools tm (n :: rest) ms k).calls with _ | ⟨a, l⟩
  · rw [hc] at h; simp at h
  · simp

/-- The dispatch loop is the map of the per-request dispatch over the
ordered tool-use requests of the turn: every request is dispatched, in
order, and a dispatch exception is converted into an error-text result. -/
theorem execBlocks_eq_map (tm0 : ToolManager) (content : List ContentBlock) :
    execBlocks tm0 content = (toolUseReqs content).map (fun b =>
      { tool_use_id := b.id
        content := match tm0.execute_tool b.name b.input with
          | .ok s => s
          | .error e => "Error executing tool: " ++ e }) := by
  induction content with
  | nil => rfl
  | cons b rest ih =>
    cases b with
    | toolUse name args bid => simp [execBlocks, toolUseReqs, ih]
    | text t => simp [execBlocks, toolUseReqs, ih]

/-- The loop issues at most one tool-enabled completion call per remaining
round: the forced final call never carries tools. -/
theorem runRounds_toolCalls_le (rounds : List Nat) :
    ∀ (ms : List ChatMessage) (k : Nat),
      ((runRounds ep sc tools tm rounds ms k).calls.filter
        (fun p => p.tools.isSome)).length ≤ rounds.length := by
  induction rounds with
  | nil =>
    intro ms k
    rw [runRounds_nil]
    simp
  | cons n rest ih =>
    intro ms k
    rcases h : ep k with e | r
    · rw [runRounds_error ep sc tools tm n rest ms k e h]
      cases hb : (roundParams sc tools ms n).tools.isSome <;>
        simp [List.filter_cons, hb]
    · by_cases hs : r.stop_reason = "tool_use"
      · rcases tm with _ | tmv
        · rw [runRounds_noManager ep sc tools n rest ms k r h hs]
          cases hb : (roundParams sc tools ms n).tools.isSome <;>
            simp [List.filter_cons, hb]
        · by_cases hn : max_rounds ≤ n
          · rw [runRounds_tool_final ep sc tools tmv n rest ms k r h hs hn]
            cases hb : (roundParams sc tools ms n).tools.isSome <;>
              simp [List.filter_cons, hb, finalParams]
          · rw [runRounds_tool_step ep sc tools tmv n rest ms k r h hs hn]
            have hrec := ih (afterTool tmv ms r.content) (k + 1)
            cases hb : (roundParams sc tools ms n).tools.isSome <;>
              simp [List.filter_cons, hb] <;> omega
      · rcases ht : firstText r.content with e | t
        · rw [runRounds_text_err ep sc tools tm n rest ms k r e h hs ht]
          cases hb : (roundParams sc tools ms n).tools.isSome <;>
            simp [List.filter_cons, hb]
        · rw [runRounds_text ep sc tools tm n rest ms k r t h hs ht]
          cases hb : (roundParams sc tools ms n).tools.isSome <;>
            simp [List.filter_cons, hb]

/-- Every answer produced by the loop is either one of the four fixed
fallback strings, the detailed round-1 apology, or the first-block text of
some endpoint response. -/
theorem runRounds_answer_cases (rounds : List Nat) :
    ∀ (ms : List ChatMessage) (k : Nat),
      (∃ e, (runRounds ep sc tools tm rounds ms k).answer = round1Apology e) ∨
      (runRounds ep sc tools tm rounds ms k).answer = followupApologyMsg ∨
      (runRounds ep sc tools tm rounds ms k).answer = finalErrorMsg ∨
      (runRounds ep sc tools tm rounds ms k).answer = unableMsg ∨
      (∃ j r t, ep j = .ok r ∧ firstText r.content = .ok t ∧
        (runRounds ep sc tools tm rounds ms k).answer = t) := by
  induction rounds with
  | nil =>
    intro ms k
    rw [runRounds_nil]
    right; right; right; left; rfl
  | cons n rest ih =>
    intro ms k
    rcases h : ep k with e | r
    · rw [runRounds_error ep sc tools tm n rest ms k e h]
      by_cases h1 : n = 1
      · left; exact ⟨e, by simp [roundFailureMsg, h1]⟩
      · right; left; simp [roundFailureMsg, h1]
    · by_cases hs : r.stop_reason = "tool_use"
      · rcases tm with _ | tmv
        · rw [runRounds_noManager ep sc tools n rest ms k r h hs]
          right; right; right; left; rfl
        · by_cases hn : max_rounds ≤ n
          · rw [runRounds_tool_final ep sc tools tmv n rest ms k r h hs hn]
            rcases h2 : ep (k + 1) with e2 | fr
            · right; right; left; simp [finalCallAnswer, h2]
            · rcases h3 : firstText fr.content with e3 | t
              · right; right; left; simp [finalCallAnswer, h2, h3]
              · right; right; right; right
                exact ⟨k + 1, fr, t, h2, h3, by simp [finalCallAnswer, h2, h3]⟩
          · rw [runRounds_tool_step ep sc tools tmv n rest ms k r h hs hn]
            exact ih (afterTool tmv ms r.content) (k + 1)
      · rcases ht : firstText r.content with e | t
        · rw [runRounds_text_err ep sc tools tm n rest ms k r e h hs ht]
          by_cases h1 : n = 1
          · left; exact ⟨e, by simp [roundFailureMsg, h1]⟩
          · right; left; simp [roundFailureMsg, h1]
        · rw [runRounds_text ep sc tools tm n rest ms k r t h hs ht]
          right; right; right; right
          exact ⟨k, r, t, h, ht, rfl⟩

end Lemmas

/-- Unfolding of `generate_response` into the round loop started at round 1
with the single user message and call index 0. -/
theorem generate_response_eq (ep : Nat → Except String Response) (q : String)
    (hist : Option String) (tools : Option (List ToolDef))
    (tm : Option ToolManager) :
    generate_response ep q hist tools tm
      = runRounds ep (systemContentOf hist) tools tm [1, 2] [userMsg q] 0 := rfl

/-- Rewriting of the trailing round-marker pieces: appending the evaluated
round bound gives the literal marker tail. -/
theorem marker_append (y : String) :
    y ++ " of " ++ toString max_rounds ++ "]" = y ++ " of 2]" := by
  have h2 : toString max_rounds = "2" := rfl
  rw [h2]
  simp [String.append_assoc]

/-- The round system text composed by the code equals the amended-claim
formula: history appears exactly when a non-empty history string was
supplied. -/
theorem roundSystem_amended (hist : Option String) (n : Nat) :
    roundSystem (systemContentOf hist) n = amendedSystemFor hist n := by
  cases hist with
  | none =>
    simp only [roundSystem, systemContentOf, amendedSystemFor]
    exact marker_append _
  | some h =>
    by_cases hh : h = ""
    · subst hh
      simp only [roundSystem, systemContentOf, amendedSystemFor, if_pos rfl]
      exact marker_append _
    · simp only [roundSystem, systemContentOf, amendedSystemFor, if_neg hh]
      exact marker_append _

/-- The round-1 system text actually issued for a supplied empty history
string differs from the formula of claim C7, which predicts a history
section whenever a history string is supplied. -/
theorem roundSystem_ne_spec : roundSystem SYSTEM_PROMPT 1 ≠ specSystemFor (some "") 1 := by
  intro hEq
  have hl := congrArg String.length hEq
  simp only [roundSystem, specSystemFor, String.length_append] at hl
  have e1 : ("\n\n[Round " : String).length = 9 := by decide
  have e2 : (" of " : String).length = 4 := by decide
  have e3 : ("]" : String).length = 1 := by decide
  have e4 : (toString (1 : Nat)).length = 1 := by decide
  have e5 : (toString max_rounds).length = 1 := by decide
  have e6 : ("\n\nPrevious conversation:\n" : String).length = 25 := by decide
  have e7 : ("" : String).length = 0 := by decide
  have e8 : (" of 2]" : String).length = 6 := by decide
  rw [e1, e2, e3, e4, e5, e6, e7, e8] at hl
  omega

/-- C1: for every query and every sequence of completion-endpoint
responses, `generate_response` issues at most `max_rounds = 2` completion
calls that carry a tool schema; and when the model requests tool use in
the final allowed round, exactly one further completion call is made whose
parameters contain no tools and no tool_choice entry, and its text is
returned. -/
theorem claim_c1_round_bound (ep : Nat → Except String Response) (q : String)
    (hist : Option String) (tools : Option (List ToolDef))
    (tm : Option ToolManager) :
    ((generate_response ep q hist tools tm).calls.filter
        (fun p => p.tools.isSome)).length ≤ max_rounds ∧
    (∀ tmv r1 r2, tm = some tmv →
      ep 0 = .ok r1 → r1.stop_reason = "tool_use" →
      ep 1 = .ok r2 → r2.stop_reason = "tool_use" →
      (generate_response ep q hist tools tm).calls.length = 3 ∧
      ((generate_response ep q hist tools tm).calls[2]?).map ApiParams.tools
        = some none ∧
      ((generate_response ep q hist tools tm).calls[2]?).map ApiParams.tool_choice
        = some none) ∧
    (∀ tmv r1 r2 fr t, tm = some tmv →
      ep 0 = .ok r1 → r1.stop_reason = "tool_use" →
      ep 1 = .ok r2 → r2.stop_reason = "tool_use" →
      ep 2 = .ok fr → firstText fr.content = .ok t →
      (generate_response ep q hist tools tm).answer = t) := by
  refine ⟨?_, ?_, ?_⟩
  · rw [generate_response_eq]
    exact runRounds_toolCalls_le ep (systemContentOf hist) tools tm [1, 2]
      [userMsg q] 0
  · rintro tmv r1 r2 rfl h0 hs1 h1 hs2
    rw [generate_response_eq,
        runRounds_tool_step ep (systemContentOf hist) tools tmv 1 [2]
          [userMsg q] 0 r1 h0 hs1 (by decide),
        runRounds_tool_final ep (systemContentOf hist) tools tmv 2 []
          (afterTool tmv [userMsg q] r1.content) 1 r2 h1 hs2 (by decide)]
    exact ⟨by simp, by simp [finalParams], by simp [finalParams]⟩
  · rintro tmv r1 r2 fr t rfl h0 hs1 h1 hs2 h2 ht
    rw [generate_response_eq,
        runRounds_tool_step ep (systemContentOf hist) tools tmv 1 [2]
          [userMsg q] 0 r1 h0 hs1 (by decide),
        runRounds_tool_final ep (systemContentOf hist) tools tmv 2 []
          (afterTool tmv [userMsg q] r1.content) 1 r2 h1 hs2 (by decide)]
    simp [finalCallAnswer, h2, ht]

/-- Witness for C1 at a concrete endpoint that requests tool use twice and
then answers with text. -/
theorem claim_c1_round_bound_witness :
    ((generate_response epTTF ("q") none (some [("T" : ToolDef)]) (some tmOk)).calls.filter
        (fun p => p.tools.isSome)).length ≤ max_rounds ∧
    ((generate_response epTTF ("q") none (some [("T" : ToolDef)]) (some tmOk)).calls.length = 3 ∧
      ((generate_response epTTF ("q") none (some [("T" : ToolDef)]) (some tmOk)).calls[2]?).map
        ApiParams.tools = some none ∧
      ((generate_response epTTF ("q") none (some [("T" : ToolDef)]) (some tmOk)).calls[2]?).map
        ApiParams.tool_choice = some none) ∧
    (generate_response epTTF ("q") none (some [("T" : ToolDef)]) (some tmOk)).answer = "final" :=
  ⟨(claim_c1_round_bound epTTF ("q") none (some [("T" : ToolDef)]) (some tmOk)).1,
   (claim_c1_round_bound epTTF ("q") none (some [("T" : ToolDef)]) (some tmOk)).2.1
     tmOk (respToolUse ("a")) (respToolUse ("b")) rfl rfl rfl rfl rfl,
   (claim_c1_round_bound epTTF ("q") none (some [("T" : ToolDef)]) (some tmOk)).2.2
     tmOk (respToolUse ("a")) (respToolUse ("b")) (respText ("final")) ("final")
     rfl rfl rfl rfl rfl rfl rfl⟩

/-- C2: for every model turn whose content contains N tool-use blocks
(N at least 1) while a tool manager is present, the orchestrator appends
exactly N tool results, all inside one following user-role message, in
request order, each carrying the tool_use_id of its corresponding request,
before the next completion call is made.  The hypothesis on the rounds
shape covers both reachable cases: a final round or a round with rounds
remaining. -/
theorem claim_c2_fold_results (ep : Nat → Except String Response) (sc : String)
    (tools : Option (List ToolDef)) (tmv : ToolManager) (n : Nat)
    (rest : List Nat) (ms : List ChatMessage) (k : Nat) (r : Response)
    (h : ep k = .ok r) (hs : r.stop_reason = "tool_use")
    (hne : toolUseReqs r.content ≠ [])
    (hshape : max_rounds ≤ n ∨ rest ≠ []) :
    ((runRounds ep sc tools (some tmv) (n :: rest) ms k).calls[1]?).map
        ApiParams.messages
      = some (ms ++ [asstMsg r.content,
                     toolResultsMsg (execBlocks tmv r.content)]) ∧
    (execBlocks tmv r.content).map ToolResultEntry.tool_use_id
      = (toolUseReqs r.content).map ToolUseReq.id ∧
    (execBlocks tmv r.content).length = (toolUseReqs r.content).length := by
  have hmap := execBlocks_eq_map tmv r.content
  have hnonempty : (execBlocks tmv r.content).isEmpty = false := by
    rw [hmap]
    rcases hreq : toolUseReqs r.content with _ | ⟨b, bs⟩
    · exact absurd hreq hne
    · simp
  have hA : afterTool tmv ms r.content
      = ms ++ [asstMsg r.content, toolResultsMsg (execBlocks tmv r.content)] := by
    simp [afterTool, hnonempty]
  refine ⟨?_, by rw [hmap]; simp, by rw [hmap]; simp⟩
  by_cases hn : max_rounds ≤ n
  · rw [runRounds_tool_final ep sc tools tmv n rest ms k r h hs hn]
    simp [finalParams, hA]
  · rcases hshape with hn2 | hrest
    · exact absurd hn2 hn
    · rcases rest with _ | ⟨n2, rest2⟩
      · exact absurd rfl hrest
      · rw [runRounds_tool_step ep sc tools tmv n (n2 :: rest2) ms k r h hs hn]
        have hh := runRounds_head ep sc tools (some tmv) n2 rest2
          (afterTool tmv ms r.content) (k + 1)
        rw [hA] at hh
        rw [hA]
        simp [hh, roundParams]

/-- Witness for C2 at a concrete final-round turn with one tool-use
block. -/
theorem claim_c2_fold_results_witness :
    ((runRounds epToolOnly ("s") none (some tmOk) [2] [] 0).calls[1]?).map
        ApiParams.messages
      = some ([] ++ [asstMsg (respToolUse ("a")).content,
                     toolResultsMsg (execBlocks tmOk (respToolUse ("a")).content)]) ∧
    (execBlocks tmOk (respToolUse ("a")).content).map ToolResultEntry.tool_use_id
      = (toolUseReqs (respToolUse ("a")).content).map ToolUseReq.id ∧
    (execBlocks tmOk (respToolUse ("a")).content).length
      = (toolUseReqs (respToolUse ("a")).content).length :=
  claim_c2_fold_results epToolOnly ("s") none tmOk 2 [] [] 0 (respToolUse ("a"))
    rfl rfl (by decide) (Or.inl (by decide))

/-- C3: for every batch of content blocks in one model turn, the dispatch
loop produces exactly one result per tool-use block, in request order; a
dispatch exception with detail `e` is caught and converted into a result
whose content is the error description `"Error executing tool: " ++ e`, so
no dispatch exception escapes the round and every remaining block is still
dispatched. -/
theorem claim_c3_dispatch_errors (tm0 : ToolManager) (content : List ContentBlock) :
    execBlocks tm0 content = (toolUseReqs content).map (fun b =>
      { tool_use_id := b.id
        content := match tm0.execute_tool b.name b.input with
          | .ok s => s
          | .error e => "Error executing tool: " ++ e }) ∧
    (execBlocks tm0 content).length = (toolUseReqs content).length := by
  refine ⟨execBlocks_eq_map tm0 content, ?_⟩
  rw [execBlocks_eq_map tm0 content]
  simp

/-- C4: a completion-endpoint exception on the very first call yields the
apology carrying the exception detail; an exception on the round-2 call
yields the fixed follow-up apology, and an exception on the forced final
call yields the fixed final-processing apology, both constants independent
of the detail. -/
theorem claim_c4_failure_messages (ep : Nat → Except String Response)
    (q : String) (hist : Option String) (tools : Option (List ToolDef))
    (tm : Option ToolManager) :
    (∀ e, ep 0 = .error e →
      (generate_response ep q hist tools tm).answer = round1Apology e) ∧
    (∀ tmv r1 e, tm = some tmv → ep 0 = .ok r1 →
      r1.stop_reason = "tool_use" → ep 1 = .error e →
      (generate_response ep q hist tools tm).answer = followupApologyMsg) ∧
    (∀ tmv r1 r2 e, tm = some tmv → ep 0 = .ok r1 →
      r1.stop_reason = "tool_use" → ep 1 = .ok r2 →
      r2.stop_reason = "tool_use" → ep 2 = .error e →
      (generate_response ep q hist tools tm).answer = finalErrorMsg) := by
  refine ⟨?_, ?_, ?_⟩
  · intro e h0
    rw [generate_response_eq,
        runRounds_error ep (systemContentOf hist) tools tm 1 [2] [userMsg q] 0 e h0]
    simp [roundFailureMsg]
  · rintro tmv r1 e rfl h0 hs1 h1
    rw [generate_response_eq,
        runRounds_tool_step ep (systemContentOf hist) tools tmv 1 [2]
          [userMsg q] 0 r1 h0 hs1 (by decide),
        runRounds_error ep (systemContentOf hist) tools (some tmv) 2 []
          (afterTool tmv [userMsg q] r1.content) 1 e h1]
    simp [roundFailureMsg]
  · rintro tmv r1 r2 e rfl h0 hs1 h1 hs2 h2
    rw [generate_response_eq,
        runRounds_tool_step ep (systemContentOf hist) tools tmv 1 [2]
          [userMsg q] 0 r1 h0 hs1 (by decide),
        runRounds_tool_final ep (systemContentOf hist) tools tmv 2 []
          (afterTool tmv [userMsg q] r1.content) 1 r2 h1 hs2 (by decide)]
    simp [finalCallAnswer, h2]

/-- Witness for C4 at three concrete endpoints failing on the first,
second and third call respectively. -/
theorem claim_c4_failure_messages_witness :
    (generate_response epErr0 ("q") none none none).answer
      = round1Apology ("boom") ∧
    (generate_response epToolThenErr ("q") none none (some tmOk)).answer
      = followupApologyMsg ∧
    (generate_response epToolToolErr ("q") none none (some tmOk)).answer
      = finalErrorMsg :=
  ⟨(claim_c4_failure_messages epErr0 ("q") none none none).1 ("boom") rfl,
   (claim_c4_failure_messages epToolThenErr ("q") none none (some tmOk)).2.1
     tmOk (respToolUse ("a")) ("boom2") rfl rfl rfl rfl,
   (claim_c4_failure_messages epToolToolErr ("q") none none (some tmOk)).2.2
     tmOk (respToolUse ("a")) (respToolUse ("a")) ("boom3") rfl rfl rfl rfl rfl rfl⟩

/-- C5: a tool-use response received while no tool manager was supplied
makes `generate_response` return the fixed unable-to-complete string
immediately, after a single completion call and without dispatching any
tool. -/
theorem claim_c5_no_manager (ep : Nat → Except String Response) (q : String)
    (hist : Option String) (tools : Option (List ToolDef)) (r : Response)
    (h0 : ep 0 = .ok r) (hs : r.stop_reason = "tool_use") :
    (generate_response ep q hist tools none).answer = unableMsg ∧
    (generate_response ep q hist tools none).calls.length = 1 := by
  rw [generate_response_eq,
      runRounds_noManager ep (systemContentOf hist) tools 1 [2] [userMsg q] 0 r h0 hs]
  exact ⟨rfl, rfl⟩

/-- Witness for C5 at a concrete endpoint that requests tool use. -/
theorem claim_c5_no_manager_witness :
    (generate_response epToolOnly ("q") none none none).answer = unableMsg ∧
    (generate_response epToolOnly ("q") none none none).calls.length = 1 :=
  claim_c5_no_manager epToolOnly ("q") none none (respToolUse ("a")) rfl rfl

/-- C6: an ordinary completion (stop reason other than tool_use) makes
`generate_response` return its text immediately after a single completion
call; and this is the only successful exit before the final round, since a
round-1 tool-use response with a manager present always leads to at least
a second completion call. -/
theorem claim_c6_direct_text (ep : Nat → Except String Response) (q : String)
    (hist : Option String) (tools : Option (List ToolDef))
    (tm : Option ToolManager) :
    (∀ r t, ep 0 = .ok r → ¬ r.stop_reason = "tool_use" →
      firstText r.content = .ok t →
      (generate_response ep q hist tools tm).answer = t ∧
      (generate_response ep q hist tools tm).calls.length = 1) ∧
    (∀ tmv r, tm = some tmv → ep 0 = .ok r → r.stop_reason = "tool_use" →
      2 ≤ (generate_response ep q hist tools tm).calls.length) := by
  constructor
  · intro r t h0 hs ht
    rw [generate_response_eq,
        runRounds_text ep (systemContentOf hist) tools tm 1 [2] [userMsg q] 0 r t h0 hs ht]
    exact ⟨rfl, rfl⟩
  · rintro tmv r rfl h0 hs
    rw [generate_response_eq,
        runRounds_tool_step ep (systemContentOf hist) tools tmv 1 [2]
          [userMsg q] 0 r h0 hs (by decide)]
    have hpos := runRounds_length_pos ep (systemContentOf hist) tools (some tmv)
      2 [] (afterTool tmv [userMsg q] r.content) 1
    have hgoal : 2 ≤ (roundParams (systemContentOf hist) tools [userMsg q] 1 ::
        (runRounds ep (systemContentOf hist) tools (some tmv) [2]
          (afterTool tmv [userMsg q] r.content) 1).calls).length := by
      simp only [List.length_cons]
      omega
    exact hgoal

/-- Witness for C6 at a concrete text completion and a concrete tool-use
completion. -/
theorem claim_c6_direct_text_witness :
    ((generate_response epTextOnly ("q") none none none).answer = "hi" ∧
      (generate_response epTextOnly ("q") none none none).calls.length = 1) ∧
    2 ≤ (generate_response epToolOnly ("q") none none (some tmOk)).calls.length :=
  ⟨(claim_c6_direct_text epTextOnly ("q") none none none).1
     (respText ("hi")) ("hi") rfl (by decide) rfl,
   (claim_c6_direct_text epToolOnly ("q") none none (some tmOk)).2
     tmOk (respToolUse ("a")) rfl rfl rfl⟩

/-- Counterexample to C7 as stated: with the empty history string supplied,
the system text of the round-1 call omits the history section, so it
differs from the formula of the claim, which predicts the section whenever
a history string was supplied. -/
theorem claim_c7_counterexample :
    ((generate_response epErr0 ("q") (some "") none none).calls[0]?).map
        ApiParams.system
      = some (roundSystem SYSTEM_PROMPT 1) ∧
    roundSystem SYSTEM_PROMPT 1 ≠ specSystemFor (some "") 1 := by
  constructor
  · rw [generate_response_eq,
        runRounds_head epErr0 (systemContentOf (some "")) none none 1 [2]
          [userMsg ("q")] 0]
    simp [roundParams, systemContentOf]
  · exact roundSystem_ne_spec

/-- C7 as amended: for round n, the system text equals the static prompt,
followed by the formatted history exactly when a non-empty history string
was supplied, followed by the round marker. -/
theorem claim_c7_amended_system_text (ep : Nat → Except String Response)
    (q : String) (hist : Option String) (tools : Option (List ToolDef))
    (tm : Option ToolManager) :
    (((generate_response ep q hist tools tm).calls[0]?).map ApiParams.system
      = some (amendedSystemFor hist 1)) ∧
    (∀ tmv r1, tm = some tmv → ep 0 = .ok r1 → r1.stop_reason = "tool_use" →
      ((generate_response ep q hist tools tm).calls[1]?).map ApiParams.system
        = some (amendedSystemFor hist 2)) := by
  constructor
  · rw [generate_response_eq,
        runRounds_head ep (systemContentOf hist) tools tm 1 [2] [userMsg q] 0]
    simp [roundParams, roundSystem_amended]
  · rintro tmv r1 rfl h0 hs
    rw [generate_response_eq,
        runRounds_tool_step ep (systemContentOf hist) tools tmv 1 [2]
          [userMsg q] 0 r1 h0 hs (by decide)]
    have hh := runRounds_head ep (systemContentOf hist) tools (some tmv) 2 []
      (afterTool tmv [userMsg q] r1.content) 1
    simp [hh, roundParams, roundSystem_amended]

/-- Witness for the amended C7 with a non-empty history string and a
round-1 tool-use response. -/
theorem claim_c7_amended_system_text_witness :
    (((generate_response epToolOnly ("q") (some ("H")) none (some tmOk)).calls[0]?).map
        ApiParams.system = some (amendedSystemFor (some ("H")) 1)) ∧
    (((generate_response epToolOnly ("q") (some ("H")) none (some tmOk)).calls[1]?).map
        ApiParams.system = some (amendedSystemFor (some ("H")) 2)) :=
  ⟨(claim_c7_amended_system_text epToolOnly ("q") (some ("H")) none (some tmOk)).1,
   (claim_c7_amended_system_text epToolOnly ("q") (some ("H")) none (some tmOk)).2
     tmOk (respToolUse ("a")) rfl rfl rfl⟩

/-- C8: for every behavior of the completion endpoint and of the tool
manager, `generate_response` returns a plain string: its answer is one of
the fixed fallback strings, the detailed round-1 apology, or the text of
some endpoint response; exceptions of the collaborators (the `.error`
values) never escape, as the result type is a plain `GenResult`. -/
theorem claim_c8_total (ep : Nat → Except String Response) (q : String)
    (hist : Option String) (tools : Option (List ToolDef))
    (tm : Option ToolManager) :
    (∃ e, (generate_response ep q hist tools tm).answer = round1Apology e) ∨
    (generate_response ep q hist tools tm).answer = followupApologyMsg ∨
    (generate_response ep q hist tools tm).answer = finalErrorMsg ∨
    (generate_response ep q hist tools tm).answer = unableMsg ∨
    (∃ j r t, ep j = .ok r ∧ firstText r.content = .ok t ∧
      (generate_response ep q hist tools tm).answer = t) := by
  rw [generate_response_eq]
  exact runRounds_answer_cases ep (systemContentOf hist) tools tm [1, 2]
    [userMsg q] 0

/-- C9: collecting sources twice without an intervening tool execution
returns the same list, and clearing then collecting returns the empty
list. -/
theorem claim_c9_sources (m : ToolManagerSources) :
    (get_last_sources ((get_last_sources m).2)).1 = (get_last_sources m).1 ∧
    (get_last_sources (reset_sources m)).1 = [] := by
  refine ⟨rfl, ?_⟩
  show ((m.tool_sources.map (fun _ => ([] : List Source))).flatten) = []
  induction m.tool_sources with
  | nil => rfl
  | cons a l ih => simp [ih]

/-- C10: a tool-use response with zero tool-use blocks appends the
assistant turn and no tool-result message, and the loop proceeds: the next
completion call is issued on the non-final round, and the forced no-tools
call is issued on the final round. -/
theorem claim_c10_zero_blocks (ep : Nat → Except String Response) (q : String)
    (hist : Option String) (tools : Option (List ToolDef)) (tmv : ToolManager)
    (r1 : Response) (h0 : ep 0 = .ok r1) (hs : r1.stop_reason = "tool_use")
    (hz : toolUseReqs r1.content = []) :
    ((generate_response ep q hist tools (some tmv)).calls[1]?).map
        ApiParams.messages
      = some [userMsg q, asstMsg r1.content] ∧
    (∀ r2, ep 1 = .ok r2 → r2.stop_reason = "tool_use" →
      toolUseReqs r2.content = [] →
      (generate_response ep q hist tools (some tmv)).calls.length = 3 ∧
      ((generate_response ep q hist tools (some tmv)).calls[2]?).map
          ApiParams.tools = some none ∧
      ((generate_response ep q hist tools (some tmv)).calls[2]?).map
          ApiParams.messages
        = some [userMsg q, asstMsg r1.content, asstMsg r2.content]) := by
  have hempty1 : afterTool tmv [userMsg q] r1.content
      = [userMsg q, asstMsg r1.content] := by
    simp [afterTool, execBlocks_eq_map, hz]
  constructor
  · rw [generate_response_eq,
        runRounds_tool_step ep (systemContentOf hist) tools tmv 1 [2]
          [userMsg q] 0 r1 h0 hs (by decide)]
    have hh := runRounds_head ep (systemContentOf hist) tools (some tmv) 2 []
      (afterTool tmv [userMsg q] r1.content) 1
    rw [hempty1] at hh
    rw [hempty1]
    simp [hh, roundParams]
  · intro r2 h1 hs2 hz2
    have hempty2 : afterTool tmv [userMsg q, asstMsg r1.content] r2.content
        = [userMsg q, asstMsg r1.content, asstMsg r2.content] := by
      simp [afterTool, execBlocks_eq_map, hz2]
    rw [generate_response_eq,
        runRounds_tool_step ep (systemContentOf hist) tools tmv 1 [2]
          [userMsg q] 0 r1 h0 hs (by decide),
        hempty1,
        runRounds_tool_final ep (systemContentOf hist) tools tmv 2 []
          [userMsg q, asstMsg r1.content] 1 r2 h1 hs2 (by decide)]
    exact ⟨by simp, by simp [finalParams], by simp [finalParams, hempty2]⟩

/-- Witness for C10 at a concrete endpoint whose responses signal tool use
with zero tool-use blocks. -/
theorem claim_c10_zero_blocks_witness :
    ((generate_response epEmptyTool ("q") none none (some tmOk)).calls[1]?).map
        ApiParams.messages
      = some [userMsg ("q"), asstMsg respToolUseEmpty.content] ∧
    ((generate_response epEmptyTool ("q") none none (some tmOk)).calls.length = 3 ∧
      ((generate_response epEmptyTool ("q") none none (some tmOk)).calls[2]?).map
          ApiParams.tools = some none ∧
      ((generate_response epEmptyTool ("q") none none (some tmOk)).calls[2]?).map
          ApiParams.messages
        = some [userMsg ("q"), asstMsg respToolUseEmpty.content,
                asstMsg respToolUseEmpty.content]) :=
  ⟨(claim_c10_zero_blocks epEmptyTool ("q") none none tmOk respToolUseEmpty
     rfl rfl rfl).1,
   (claim_c10_zero_blocks epEmptyTool ("q") none none tmOk respToolUseEmpty
     rfl rfl rfl).2 respToolUseEmpty rfl rfl rfl⟩

end RagSpec
